import Mathlib

/-!
Verification development for the AI review-suggestion subsystem of the
magic-qr-generator repository.  The TypeScript services are shallowly
embedded as executable Lean functions:

* namespace V2      — src/src/services/aiReviewServiceV2.ts
  (RequestCache, RateLimiter, AIReviewService.generateReviews)
* namespace RTGen   — src/unnamed/part_005, first module
  (runtime generation with a cross-attempt retry loop and the
  isRecentDuplicate check-and-record cache)
* namespace BatchGen — src/unnamed/part_005, second module
  (batch generation with isReviewDuplicate / markReviewAsUsed)
* namespace RotGen  — src/unnamed/part_006, first module
  (rotating per-key fallback selection)
* namespace Gemini  — src/src/services/aiReviewService.ts
  (Gemini variant with the shuffled category fallback pools)

JavaScript Maps keyed by strings are embedded as association lists,
Sets of strings as insertion-ordered duplicate-free lists, timestamps
as integers in milliseconds, and the nondeterministic upstream HTTP
exchange as an explicit outcome parameter.
-/

/-- Association-list lookup with a default, embedding JavaScript
Map.get(k) with a fallback value. -/
def mapGetD {α : Type} (m : List (String × α)) (k : String) (d : α) : α :=
  ((m.find? (fun p => p.1 == k)).map Prod.snd).getD d

/-- Embedding of JavaScript Map.has(k). -/
def mapHas {α : Type} (m : List (String × α)) (k : String) : Bool :=
  m.any (fun p => p.1 == k)

/-- Embedding of JavaScript Map.set(k, v): overwrite in place, or append. -/
def mapSet {α : Type} (m : List (String × α)) (k : String) (v : α) : List (String × α) :=
  if mapHas m k then m.map (fun p => if p.1 == k then (k, v) else p)
  else m ++ [(k, v)]

theorem find?_mapSet_self {α : Type} (m : List (String × α)) (k : String) (v : α) :
    (mapSet m k v).find? (fun p => p.1 == k) = some (k, v) := by
  unfold mapSet
  split
  · rename_i hhas
    induction m with
    | nil => simp [mapHas] at hhas
    | cons a t ih =>
      by_cases h : a.1 == k
      · simp [List.find?, h]
      · have ht : mapHas t k = true := by
          simp [mapHas] at hhas ⊢
          rcases hhas with h1 | h1
          · exact absurd h1 (by simpa using h)
          · exact h1
        simp only [List.map_cons, List.find?]
        rw [if_neg (by simpa using h)]
        simp only [h]
        exact ih ht
  · rename_i hhas
    induction m with
    | nil => simp [List.find?]
    | cons a t ih =>
      have h1 : (a.1 == k) = false := by
        by_contra hc
        exact hhas (by simp [mapHas]; exact Or.inl (by simpa using hc))
      have ht : ¬ mapHas t k = true := by
        intro hc
        exact hhas (by simp [mapHas] at hc ⊢; exact Or.inr hc)
      simp only [List.cons_append, List.find?, h1]
      exact ih ht

theorem mapGetD_mapSet {α : Type} (m : List (String × α)) (k : String) (v d : α) :
    mapGetD (mapSet m k v) k d = v := by
  unfold mapGetD
  rw [find?_mapSet_self]
  rfl

theorem find?_eq_none_of_not_has {α : Type} (m : List (String × α)) (k : String)
    (h : mapHas m k = false) : m.find? (fun p => p.1 == k) = none := by
  rw [List.find?_eq_none]
  intro p hp
  simp [mapHas] at h
  simpa using h p.1 p.2 hp

theorem mapGetD_of_not_has {α : Type} (m : List (String × α)) (k : String) (d : α)
    (h : mapHas m k = false) : mapGetD m k d = d := by
  unfold mapGetD
  rw [find?_eq_none_of_not_has m k h]
  rfl

/-- The value stored for key k after the lazy-initialization step
used by the dedup caches (insert an empty entry when the key is absent). -/
theorem mapGetD_ensure {α : Type} (m : List (String × α)) (k : String) (d : α) :
    mapGetD (if mapHas m k then m else mapSet m k d) k d = mapGetD m k d := by
  by_cases h : mapHas m k
  · simp [h]
  · have hf : mapHas m k = false := by simpa using h
    rw [hf]
    simp only [Bool.false_eq_true, if_false]
    rw [mapGetD_mapSet, mapGetD_of_not_has m k d hf]

/-- Embedding of String.prototype.toLowerCase, character by character
(kernel-reducible, unlike the iterator-based library function). -/
def jsToLower (s : String) : String :=
  String.mk (s.data.map Char.toLower)

/-- Embedding of String.prototype.trim: drop whitespace from both ends. -/
def jsTrim (s : String) : String :=
  String.mk (((s.data.dropWhile Char.isWhitespace).reverse.dropWhile
    Char.isWhitespace).reverse)

/-- JavaScript truthiness default: o || d for optional counts
(undefined and 0 are falsy). -/
def jsOr : Option Nat → Nat → Nat
  | none, d => d
  | some 0, d => d
  | some (n+1), _ => n+1

theorem jsOr_pos (o : Option Nat) : 1 ≤ jsOr o 3 := by
  match o with
  | none => decide
  | some 0 => decide
  | some (n+1) => exact Nat.succ_le_succ (Nat.zero_le n)

theorem take_ne_nil {α : Type} (l : List α) (n : Nat) (hl : l ≠ []) (hn : n ≠ 0) :
    l.take n ≠ [] := by
  cases l with
  | nil => exact absurd rfl hl
  | cons a t =>
    cases n with
    | zero => exact absurd rfl hn
    | succ m => simp

/-- The tone option of a generation request. -/
inductive Tone where
  | professional
  | casual
  | enthusiastic
deriving DecidableEq

def Tone.str : Tone → String
  | .professional => "professional"
  | .casual => "casual"
  | .enthusiastic => "enthusiastic"

/-- Shape of the request object shared by all service variants. -/
structure AIReviewRequest where
  businessName : String
  businessCategory : String
  numberOfReviews : Option Nat
  tone : Option Tone
  language : Option String
deriving DecidableEq

namespace V2

/-- Rate limiting configuration of aiReviewServiceV2.ts. -/
structure RateLimitConfig where
  maxRequestsPerMinute : Nat
  maxRequestsPerHour : Nat
  cacheDurationMs : Int
deriving DecidableEq

def DEFAULT_RATE_LIMIT_CONFIG : RateLimitConfig :=
  ⟨10, 100, 3600000⟩

/-- Static review templates used as fallback in aiReviewServiceV2.ts. -/
def FALLBACK_REVIEWS : List String :=
  [ "Professional service and genuine care. Highly satisfied with the experience!"
  , "Excellent work on my inquiry. Fair pricing and quick response. Would recommend."
  , "Outstanding service! Fixed my issue right the first time. Thank you!"
  , "Great attention to detail. Professional team that truly cares about quality."
  , "Exceptional experience from start to finish. Will definitely return!" ]

/-- getFallbackReviews: push FALLBACK_REVIEWS entries while i < count and
i < FALLBACK_REVIEWS.length, i.e. the first count entries. -/
def getFallbackReviews (count : Nat) : List String :=
  FALLBACK_REVIEWS.take count

structure AIReviewResponse where
  reviews : List String
  timestamp : Int
  model : String
deriving DecidableEq

structure CacheEntry where
  data : AIReviewResponse
  timestamp : Int
deriving DecidableEq

/-- RequestCache of aiReviewServiceV2.ts: a Map from cache key to a
response plus the time it was stored. -/
structure RequestCache where
  cache : List (String × CacheEntry)
  config : RateLimitConfig
deriving DecidableEq

/-- RequestCache.get: expired entries are deleted and miss; fresh entries hit. -/
def RequestCache.get (c : RequestCache) (key : String) (now : Int) :
    Option AIReviewResponse × RequestCache :=
  match c.cache.find? (fun p => p.1 == key) with
  | none => (none, c)
  | some p =>
    if c.config.cacheDurationMs < now - p.2.timestamp then
      (none, ⟨c.cache.filter (fun q => !(q.1 == key)), c.config⟩)
    else (some p.2.data, c)

/-- RequestCache.set: Map.set on the cache key. -/
def RequestCache.set (c : RequestCache) (key : String) (d : AIReviewResponse) (now : Int) :
    RequestCache :=
  ⟨mapSet c.cache key ⟨d, now⟩, c.config⟩

/-- Sliding-window rate limiter of aiReviewServiceV2.ts. -/
structure RateLimiter where
  requestTimestamps : List Int
  config : RateLimitConfig
deriving DecidableEq

/-- canMakeRequest: prune to the trailing hour in place, then compare the
trailing-minute count and the pruned length against the ceilings. -/
def RateLimiter.canMakeRequest (rl : RateLimiter) (now : Int) : Bool × RateLimiter :=
  let pruned := rl.requestTimestamps.filter (fun ts => now - 3600000 < ts)
  let lastMinuteRequests := (pruned.filter (fun ts => now - 60000 < ts)).length
  if rl.config.maxRequestsPerMinute ≤ lastMinuteRequests then (false, ⟨pruned, rl.config⟩)
  else if rl.config.maxRequestsPerHour ≤ pruned.length then (false, ⟨pruned, rl.config⟩)
  else (true, ⟨pruned, rl.config⟩)

/-- recordRequest: append the current timestamp. -/
def RateLimiter.recordRequest (rl : RateLimiter) (now : Int) : RateLimiter :=
  ⟨rl.requestTimestamps ++ [now], rl.config⟩

/-- Result of attempting JSON.parse on the model output: a JSON array of
strings, some other JSON value, or a parse exception. -/
inductive JsonParsed where
  | arr (reviews : List String)
  | notArray
  | parseError
deriving DecidableEq

/-- The observable content of one upstream HTTP exchange. -/
structure UpstreamHttp where
  ok : Bool
  content : Option String
  parsed : JsonParsed
deriving DecidableEq

/-- One upstream outcome: either fetch itself throws, or a response arrives. -/
inductive UpstreamOutcome where
  | netThrow
  | http (r : UpstreamHttp)
deriving DecidableEq

/-- Line-based heuristic extraction used when JSON parsing fails:
split on newlines, strip leading digits, dashes, dots, parens and
whitespace, trim, keep lines of length 11..499, take the first n. -/
def extractReviews (content : String) (n : Nat) : List String :=
  ((((content.split (fun c => c == '\n' || c == '\r')).map
      (fun line =>
        (line.dropWhile
          (fun c => c.isDigit || c == '-' || c == '.' || c == ')' || c.isWhitespace)).trim)).filter
      (fun line => decide (10 < line.length) && decide (line.length < 500))).take n)

/-- callAIAPI: throws (Except.error) without a key, on network failure,
non-2xx status, missing content, non-array JSON, or when no reviews
survive; otherwise returns the first numberOfReviews parsed reviews. -/
def callAIAPI (apiKey : Option String) (req : AIReviewRequest) (u : UpstreamOutcome)
    (now : Int) : Except String AIReviewResponse :=
  match apiKey with
  | none => Except.error "Groq API key not configured"
  | some _ =>
    match u with
    | .netThrow => Except.error "network failure"
    | .http r =>
      if r.ok = false then Except.error "Groq API error"
      else
        match r.content with
        | none => Except.error "No content in Groq API response"
        | some content =>
          let n := jsOr req.numberOfReviews 3
          match r.parsed with
          | .notArray => Except.error "Invalid review format from Groq API"
          | .arr xs =>
            if xs = [] then Except.error "Invalid review format from Groq API"
            else Except.ok ⟨xs.take n, now, "mixtral-8x7b-32768"⟩
          | .parseError =>
            let reviews := extractReviews content n
            if reviews = [] then Except.error "Invalid review format from Groq API"
            else Except.ok ⟨reviews.take n, now, "mixtral-8x7b-32768"⟩

/-- Diagnostic tag recording which branch of generateReviews produced
the returned list (the console log each branch emits in the source). -/
inductive Source where
  | disabledFallback
  | rateLimitFallback
  | cacheHit
  | apiSuccess
  | errorFallback
deriving DecidableEq

/-- The mutable state of the AIReviewService singleton. -/
structure AIReviewService where
  cache : RequestCache
  rateLimiter : RateLimiter
  apiKey : Option String
  enabled : Bool
deriving DecidableEq

def generateCacheKey (req : AIReviewRequest) : String :=
  req.businessName ++ "_" ++ req.businessCategory ++ "_"
    ++ toString (jsOr req.numberOfReviews 3) ++ "_"
    ++ (req.tone.getD Tone.professional).str

/-- generateReviews of aiReviewServiceV2.ts: disabled check, rate-limit
gate, cache lookup, then the API call whose failure is caught and
replaced by fallback reviews. -/
def AIReviewService.generateReviews (st : AIReviewService) (req : AIReviewRequest)
    (u : UpstreamOutcome) (now : Int) : (List String × Source) × AIReviewService :=
  if st.enabled = false then
    ((getFallbackReviews (jsOr req.numberOfReviews 3), Source.disabledFallback), st)
  else
    let rlres := st.rateLimiter.canMakeRequest now
    if rlres.1 = false then
      ((getFallbackReviews (jsOr req.numberOfReviews 3), Source.rateLimitFallback),
        ⟨st.cache, rlres.2, st.apiKey, st.enabled⟩)
    else
      let cres := st.cache.get (generateCacheKey req) now
      match cres.1 with
      | some resp =>
        ((resp.reviews, Source.cacheHit), ⟨cres.2, rlres.2, st.apiKey, st.enabled⟩)
      | none =>
        match callAIAPI st.apiKey req u now with
        | Except.ok resp =>
          ((resp.reviews, Source.apiSuccess),
            ⟨cres.2.set (generateCacheKey req) resp now, rlres.2.recordRequest now,
              st.apiKey, st.enabled⟩)
        | Except.error _ =>
          ((getFallbackReviews (jsOr req.numberOfReviews 3), Source.errorFallback),
            ⟨cres.2, rlres.2, st.apiKey, st.enabled⟩)

end V2

namespace V2

theorem generateReviews_disabled (st : AIReviewService) (req : AIReviewRequest)
    (u : UpstreamOutcome) (now : Int) (h : st.enabled = false) :
    st.generateReviews req u now
      = ((getFallbackReviews (jsOr req.numberOfReviews 3), Source.disabledFallback), st) := by
  unfold AIReviewService.generateReviews
  rw [h]
  simp

theorem generateReviews_rateLimited (st : AIReviewService) (req : AIReviewRequest)
    (u : UpstreamOutcome) (now : Int) (h1 : st.enabled = true)
    (h2 : (st.rateLimiter.canMakeRequest now).1 = false) :
    st.generateReviews req u now
      = ((getFallbackReviews (jsOr req.numberOfReviews 3), Source.rateLimitFallback),
          ⟨st.cache, (st.rateLimiter.canMakeRequest now).2, st.apiKey, st.enabled⟩) := by
  unfold AIReviewService.generateReviews
  rw [h1]
  simp [h2]

theorem generateReviews_cacheHit (st : AIReviewService) (req : AIReviewRequest)
    (u : UpstreamOutcome) (now : Int) (resp : AIReviewResponse) (h1 : st.enabled = true)
    (h2 : (st.rateLimiter.canMakeRequest now).1 = true)
    (h3 : (st.cache.get (generateCacheKey req) now).1 = some resp) :
    st.generateReviews req u now
      = ((resp.reviews, Source.cacheHit),
          ⟨(st.cache.get (generateCacheKey req) now).2,
            (st.rateLimiter.canMakeRequest now).2, st.apiKey, st.enabled⟩) := by
  unfold AIReviewService.generateReviews
  rw [h1]
  simp [h2, h3]

theorem generateReviews_apiOk (st : AIReviewService) (req : AIReviewRequest)
    (u : UpstreamOutcome) (now : Int) (resp : AIReviewResponse) (h1 : st.enabled = true)
    (h2 : (st.rateLimiter.canMakeRequest now).1 = true)
    (h3 : (st.cache.get (generateCacheKey req) now).1 = none)
    (h4 : callAIAPI st.apiKey req u now = Except.ok resp) :
    st.generateReviews req u now
      = ((resp.reviews, Source.apiSuccess),
          ⟨((st.cache.get (generateCacheKey req) now).2).set (generateCacheKey req) resp now,
            ((st.rateLimiter.canMakeRequest now).2).recordRequest now,
            st.apiKey, st.enabled⟩) := by
  unfold AIReviewService.generateReviews
  rw [h1]
  simp [h2, h3, h4]

theorem generateReviews_apiErr (st : AIReviewService) (req : AIReviewRequest)
    (u : UpstreamOutcome) (now : Int) (e : String) (h1 : st.enabled = true)
    (h2 : (st.rateLimiter.canMakeRequest now).1 = true)
    (h3 : (st.cache.get (generateCacheKey req) now).1 = none)
    (h4 : callAIAPI st.apiKey req u now = Except.error e) :
    st.generateReviews req u now
      = ((getFallbackReviews (jsOr req.numberOfReviews 3), Source.errorFallback),
          ⟨(st.cache.get (generateCacheKey req) now).2,
            (st.rateLimiter.canMakeRequest now).2, st.apiKey, st.enabled⟩) := by
  unfold AIReviewService.generateReviews
  rw [h1]
  simp [h2, h3, h4]

/-- The static fallback list is never empty for a requested count of at
least one. -/
theorem getFallbackReviews_ne_nil (count : Nat) (h : 1 ≤ count) :
    getFallbackReviews count ≠ [] := by
  unfold getFallbackReviews
  exact take_ne_nil _ _ (by decide) (by omega)

/-- A cache hit does not modify the cache. -/
theorem RequestCache.get_some_snd (c : RequestCache) (key : String) (now : Int)
    (resp : AIReviewResponse) (h : (c.get key now).1 = some resp) :
    (c.get key now).2 = c := by
  unfold RequestCache.get at h ⊢
  cases hf : c.cache.find? (fun p => p.1 == key) with
  | none => simp [hf] at h
  | some p =>
    rw [hf] at h
    by_cases hex : c.config.cacheDurationMs < now - p.2.timestamp
    · simp [hex] at h
    · simp [hex]

/-- A cache hit returns the stored data of some entry of the cache list. -/
theorem RequestCache.get_some_mem (c : RequestCache) (key : String) (now : Int)
    (resp : AIReviewResponse) (h : (c.get key now).1 = some resp) :
    ∃ p ∈ c.cache, p.2.data = resp := by
  unfold RequestCache.get at h
  cases hf : c.cache.find? (fun p => p.1 == key) with
  | none => simp [hf] at h
  | some p =>
    rw [hf] at h
    by_cases hex : c.config.cacheDurationMs < now - p.2.timestamp
    · simp [hex] at h
    · simp [hex] at h
      exact ⟨p, List.mem_of_find?_eq_some hf, h⟩

/-- Whenever callAIAPI succeeds, the returned review list is non-empty. -/
theorem callAIAPI_ok_nonempty (apiKey : Option String) (req : AIReviewRequest)
    (u : UpstreamOutcome) (now : Int) (resp : AIReviewResponse)
    (h : callAIAPI apiKey req u now = Except.ok resp) : resp.reviews ≠ [] := by
  unfold callAIAPI at h
  cases apiKey with
  | none => simp at h
  | some k =>
    cases u with
    | netThrow => simp at h
    | http r =>
      simp only [] at h
      by_cases hok : r.ok = false
      · simp [hok] at h
      · rw [if_neg hok] at h
        cases hc : r.content with
        | none => simp [hc] at h
        | some content =>
          rw [hc] at h
          cases hp : r.parsed with
          | notArray => simp [hp] at h
          | arr xs =>
            rw [hp] at h
            by_cases hxs : xs = []
            · simp [hxs] at h
            · simp [hxs] at h
              rw [← h]
              exact take_ne_nil _ _ hxs (by have := jsOr_pos req.numberOfReviews; omega)
          | parseError =>
            rw [hp] at h
            by_cases hr : extractReviews content (jsOr req.numberOfReviews 3) = []
            · simp [hr] at h
            · simp [hr] at h
              rw [← h]
              exact take_ne_nil _ _ hr (by have := jsOr_pos req.numberOfReviews; omega)

end V2

namespace RTGen

/-- hashReview of the runtime-generation module: lower-case, trim, keep
the first 80 characters, strip everything that is not a-z or 0-9. -/
def hashReview (review : String) : String :=
  String.mk (((jsTrim (jsToLower review)).data.take 80).filter
    (fun c => c.isLower || c.isDigit))

/-- isRecentDuplicate: a check-and-record operation.  It lazily creates
the per-key set, answers true on a known fingerprint, and otherwise
records the fingerprint, evicting the first-inserted entry once the set
exceeds 20 entries. -/
def isRecentDuplicate (review businessKey : String)
    (cache : List (String × List String)) :
    Bool × List (String × List String) :=
  let cache1 := if mapHas cache businessKey then cache else mapSet cache businessKey []
  let entry := mapGetD cache1 businessKey []
  let h := hashReview review
  if h ∈ entry then (true, cache1)
  else
    let e1 := entry ++ [h]
    let e2 := if 20 < e1.length then e1.drop 1 else e1
    (false, mapSet cache1 businessKey e2)

/-- Category-keyed single fallback review strings; lookup is by
lower-cased category and defaults to the service entry. -/
def fallbackByCategory : List (String × String) :=
  [ ("software_development", "Excellent technical team with deep expertise. Delivered exactly what we needed on time.")
  , ("restaurant", "Great food and atmosphere! The staff was attentive and the experience was memorable.")
  , ("automotive", "Professional mechanics who explained everything clearly. Fair pricing and quality work.")
  , ("healthcare", "Compassionate care from knowledgeable medical professionals. Very satisfied with treatment.")
  , ("salon_spa", "Skilled stylists in a relaxing atmosphere. Definitely returning for more services.")
  , ("real_estate", "Professional agent with great market knowledge. Smooth transaction and fair pricing.")
  , ("education", "Excellent instructors with engaging teaching methods. Highly recommended for learning.")
  , ("service", "Professional and reliable service with great attention to detail. Highly satisfied.") ]

def getFallbackReview (category : String) : String :=
  mapGetD fallbackByCategory (jsToLower category)
    "Professional and reliable service with great attention to detail. Highly satisfied."

/-- Observable outcome of one iteration of the retry loop. -/
inductive Attempt where
  | netThrow
  | httpError
  | noContent
  | noJsonMatch
  | parsedReview (review : String)
  | extractedReview (review : Option String)
deriving DecidableEq

/-- The retry loop body of the runtime-generation generateReviews: each
attempt either returns a fresh non-duplicate review of length above 20,
or falls through to the next attempt; a throw from fetch aborts to the
outer catch; an exhausted budget falls back to the static review. -/
def generateLoop (businessKey category : String)
    (cache : List (String × List String)) :
    List Attempt → List String × List (String × List String)
  | [] => ([getFallbackReview category], cache)
  | Attempt.netThrow :: _ => ([getFallbackReview category], cache)
  | Attempt.httpError :: rest => generateLoop businessKey category cache rest
  | Attempt.noContent :: rest => generateLoop businessKey category cache rest
  | Attempt.noJsonMatch :: rest => generateLoop businessKey category cache rest
  | Attempt.parsedReview r :: rest =>
    let review := jsTrim r
    if 20 < review.length then
      let dres := isRecentDuplicate review businessKey cache
      if dres.1 = false then ([review], dres.2)
      else generateLoop businessKey category dres.2 rest
    else generateLoop businessKey category cache rest
  | Attempt.extractedReview none :: rest => generateLoop businessKey category cache rest
  | Attempt.extractedReview (some r) :: rest =>
    let review := jsTrim r
    if 20 < review.length then
      let dres := isRecentDuplicate review businessKey cache
      if dres.1 = false then ([review], dres.2)
      else generateLoop businessKey category dres.2 rest
    else generateLoop businessKey category cache rest

/-- State of the runtime-generation AIReviewService. -/
structure Service where
  apiKey : Option String
  recentReviewsCache : List (String × List String)
deriving DecidableEq

/-- generateReviews of the runtime-generation module: without a key the
category fallback is returned; otherwise at most maxRetries = 3
attempts are made through the retry loop. -/
def Service.generateReviews (st : Service) (req : AIReviewRequest)
    (attempts : List Attempt) : List String × Service :=
  match st.apiKey with
  | none => ([getFallbackReview req.businessCategory], st)
  | some k =>
    let businessKey := jsToLower (req.businessName ++ "_" ++ req.businessCategory)
    let res := generateLoop businessKey req.businessCategory
      st.recentReviewsCache (attempts.take 3)
    (res.1, ⟨some k, res.2⟩)

end RTGen

namespace BatchGen

/-- hashReview of the batch-generation module: lower-case, trim, keep
the first 100 characters, strip everything that is not a-z or 0-9. -/
def hashReview (review : String) : String :=
  String.mk (((jsTrim (jsToLower review)).data.take 100).filter
    (fun c => c.isLower || c.isDigit))

/-- isReviewDuplicate: membership test of the fingerprint in the
per-business-key set (absent key reads as the empty set). -/
def isReviewDuplicate (review businessKey : String)
    (cache : List (String × List String)) :
    Bool × List (String × List String) :=
  (decide (hashReview review ∈ mapGetD cache businessKey []), cache)

/-- markReviewAsUsed: lazily create the per-key set and add the
fingerprint; no bound is enforced. -/
def markReviewAsUsed (review businessKey : String)
    (cache : List (String × List String)) : List (String × List String) :=
  let cache1 := if mapHas cache businessKey then cache else mapSet cache businessKey []
  let entry := mapGetD cache1 businessKey []
  let h := hashReview review
  mapSet cache1 businessKey (if h ∈ entry then entry else entry ++ [h])

end BatchGen

namespace RotGen

def automotivePool : List String :=
  [ "Professional mechanics who explained everything clearly. Fair pricing and quality work."
  , "Excellent service and fair rates. Great mechanics who really care about their work."
  , "Quick turnaround and quality repairs. Highly satisfied with the transparent pricing."
  , "Expert diagnostics and genuine parts. Very professional and reliable team."
  , "They fixed the issue perfectly. Great customer service and honest pricing."
  , "Amazing attention to detail on repairs. Professional staff and fair rates."
  , "Top-notch service! Skilled mechanics and excellent customer communication."
  , "Reliable and trustworthy. They diagnosed the problem correctly on first try." ]

def restaurantPool : List String :=
  [ "Great food and atmosphere! The staff was attentive and the experience was memorable."
  , "Delicious menu with fresh ingredients. Fantastic ambiance and friendly service."
  , "Wonderful dining experience! The portions were generous and flavors excellent."
  , "Loved the authentic cuisine and warm hospitality. Will definitely return."
  , "Amazing food quality with perfect presentation. Staff was very accommodating."
  , "Incredible taste and beautiful plating. Service was prompt and professional."
  , "One of the best dining experiences! Fresh ingredients and skilled preparation."
  , "Fantastic flavors and cozy atmosphere. Highly recommend this restaurant!" ]

def servicePool : List String :=
  [ "Professional and reliable service with great attention to detail. Highly satisfied."
  , "Excellent work quality and prompt completion. Very pleased with the results."
  , "Great service, fair pricing, and professional team. Highly recommended."
  , "They delivered exactly what they promised. Outstanding customer support."
  , "Amazing service! Professional, timely, and great value for money."
  , "Fantastic work quality and excellent communication throughout the process."
  , "Reliable team with strong expertise. They solved our problem efficiently."
  , "Outstanding professionalism and attention to detail. Will definitely use again!" ]

/-- Category-keyed fallback pools of the rotating-fallback module. -/
def FALLBACK_REVIEWS : List (String × List String) :=
  [ ("automotive", automotivePool)
  , ("restaurant", restaurantPool)
  , ("service", servicePool) ]

/-- The pool the rotating selection reads for a category: lookup by the
lower-cased category, defaulting to the service pool. -/
def poolFor (category : String) : List String :=
  mapGetD FALLBACK_REVIEWS (jsToLower category) servicePool

/-- getRotatingFallback: pick the review at the per-business-key index
modulo pool length, then advance the stored index. -/
def getRotatingFallback (category businessKey : String)
    (fallbackIndex : List (String × Nat)) : String × List (String × Nat) :=
  let reviews := poolFor category
  let index := mapGetD fallbackIndex businessKey 0
  let review := reviews.getD (index % reviews.length) ""
  (review, mapSet fallbackIndex businessKey (index + 1))

theorem poolFor_cases (category : String) :
    poolFor category = automotivePool ∨ poolFor category = restaurantPool
      ∨ poolFor category = servicePool := by
  unfold poolFor mapGetD FALLBACK_REVIEWS
  by_cases h1 : ("automotive" == jsToLower category) = true
  · simp [List.find?, h1]
  · by_cases h2 : ("restaurant" == jsToLower category) = true
    · simp [List.find?, h1, h2]
    · by_cases h3 : ("service" == jsToLower category) = true
      · simp [List.find?, h1, h2, h3]
      · simp [List.find?, h1, h2, h3]

end RotGen

namespace Gemini

def autoGaragePool : List String :=
  [ "Professional service and genuine care for my vehicle. The team took time to explain every repair and was completely transparent about costs. Highly satisfied!"
  , "Excellent work on my car maintenance. They fixed the issue properly and the pricing was fair. Would definitely recommend to anyone looking for reliable auto service."
  , "Great experience! The mechanics were knowledgeable and friendly. They completed the repair on time and did a thorough job. Will definitely be coming back!" ]

def professionalServicesPool : List String :=
  [ "Excellent service! Professional team, on-time delivery, and great communication throughout."
  , "Very satisfied with the work done. Highly skilled professionals who deliver quality results."
  , "Great experience! The team understood my needs and delivered exactly what I wanted." ]

def generalBusinessPool : List String :=
  [ "Great service! Professional team and excellent results."
  , "Very satisfied with the quality and the service provided."
  , "Highly recommend! Best in class service and support." ]

/-- FALLBACK_REVIEWS_BY_CATEGORY of aiReviewService.ts. -/
def FALLBACK_REVIEWS_BY_CATEGORY : List (String × List String) :=
  [ ("Auto Garage", autoGaragePool)
  , ("Professional Services", professionalServicesPool)
  , ("General Business", generalBusinessPool) ]

/-- The pool selected for a category: exact-key lookup defaulting to the
Professional Services pool. -/
def categoryReviews (category : String) : List String :=
  mapGetD FALLBACK_REVIEWS_BY_CATEGORY category professionalServicesPool

/-- getFallbackReviews of aiReviewService.ts: shuffle a copy of the
category pool with a random comparator, then take the first
numberOfReviews entries.  The shuffle is the only nondeterminism; it is
passed in as a function, constrained to produce a permutation in the
theorems below. -/
def getFallbackReviews (category : String) (numberOfReviews : Nat)
    (shuffle : List String → List String) : List String :=
  (shuffle (categoryReviews category)).take numberOfReviews

end Gemini

theorem mapHas_eq_false_of_ne {α : Type} (m : List (String × α)) (k : String)
    (h : ∀ p ∈ m, p.1 ≠ k) : mapHas m k = false := by
  rw [← Bool.not_eq_true]
  intro hc
  simp only [mapHas, List.any_eq_true] at hc
  obtain ⟨p, hp, hpk⟩ := hc
  exact h p hp (by simpa using hpk)

theorem getD_mod_mem (p : List String) (i : Nat) (hp : p ≠ []) :
    p.getD (i % p.length) "" ∈ p := by
  have hl : 0 < p.length := List.length_pos.mpr hp
  have hm : i % p.length < p.length := Nat.mod_lt _ hl
  rw [List.getD_eq_getElem?_getD, List.getElem?_eq_getElem hm]
  exact List.getElem_mem hm

theorem getD_cycle_ne (p : List String) (hp : p.length = 8)
    (hadj : ∀ j, j < 8 → ¬ p.getD j "" = p.getD ((j+1) % 8) "") (i : Nat) :
    ¬ p.getD ((i+1) % p.length) "" = p.getD (i % p.length) "" := by
  rw [hp]
  have h1 : i % 8 < 8 := Nat.mod_lt _ (by norm_num)
  have h2 : (i+1) % 8 = (i % 8 + 1) % 8 := by omega
  rw [h2]
  intro he
  exact hadj (i % 8) h1 he.symm

namespace V2

theorem canMakeRequest_snd (rl : RateLimiter) (now : Int) :
    (rl.canMakeRequest now).2.requestTimestamps
      = rl.requestTimestamps.filter (fun ts => now - 3600000 < ts) := by
  unfold RateLimiter.canMakeRequest
  dsimp only
  split_ifs <;> rfl

theorem canMakeRequest_false_iff (rl : RateLimiter) (now : Int) :
    (rl.canMakeRequest now).1 = false ↔
      rl.config.maxRequestsPerMinute ≤
        ((rl.requestTimestamps.filter (fun ts => now - 3600000 < ts)).filter
          (fun ts => now - 60000 < ts)).length
      ∨ rl.config.maxRequestsPerHour ≤
        (rl.requestTimestamps.filter (fun ts => now - 3600000 < ts)).length := by
  unfold RateLimiter.canMakeRequest
  dsimp only
  split_ifs with ha hb
  · exact iff_of_true rfl (Or.inl ha)
  · exact iff_of_true rfl (Or.inr hb)
  · refine iff_of_false (by simp) ?_
    rintro (h | h)
    · exact ha h
    · exact hb h

end V2

namespace RTGen

/-- The per-key entry after one isRecentDuplicate call: unchanged on a
known fingerprint; otherwise the fingerprint is appended and the head
is dropped once the entry exceeds 20 elements. -/
theorem isRecentDuplicate_entry (review businessKey : String)
    (cache : List (String × List String)) :
    mapGetD (isRecentDuplicate review businessKey cache).2 businessKey []
      = (if hashReview review ∈ mapGetD cache businessKey []
         then mapGetD cache businessKey []
         else (if 20 < (mapGetD cache businessKey [] ++ [hashReview review]).length
               then (mapGetD cache businessKey [] ++ [hashReview review]).drop 1
               else mapGetD cache businessKey [] ++ [hashReview review])) := by
  unfold isRecentDuplicate
  dsimp only
  by_cases hmem : hashReview review ∈ mapGetD cache businessKey []
  · have h1 : hashReview review
        ∈ mapGetD (if mapHas cache businessKey = true then cache
                   else mapSet cache businessKey []) businessKey [] := by
      rw [mapGetD_ensure]; exact hmem
    rw [if_pos h1, if_pos hmem]
    exact mapGetD_ensure _ _ _
  · have h1 : hashReview review
        ∉ mapGetD (if mapHas cache businessKey = true then cache
                   else mapSet cache businessKey []) businessKey [] := by
      rw [mapGetD_ensure]; exact hmem
    rw [if_neg h1, if_neg hmem]
    rw [mapGetD_mapSet]
    rw [mapGetD_ensure]

/-- A duplicate check on an already-recorded fingerprint answers true
and leaves the per-key entry unchanged. -/
theorem isRecentDuplicate_dup (review businessKey : String)
    (cache : List (String × List String))
    (h : hashReview review ∈ mapGetD cache businessKey []) :
    (isRecentDuplicate review businessKey cache).1 = true
    ∧ mapGetD (isRecentDuplicate review businessKey cache).2 businessKey []
        = mapGetD cache businessKey [] := by
  constructor
  · unfold isRecentDuplicate
    dsimp only
    have h1 : hashReview review
        ∈ mapGetD (if mapHas cache businessKey = true then cache
                   else mapSet cache businessKey []) businessKey [] := by
      rw [mapGetD_ensure]; exact h
    rw [if_pos h1]
  · rw [isRecentDuplicate_entry, if_pos h]

/-- If every attempt in the budget parses to a candidate above the
length floor whose fingerprint is already recorded for the business
key, the loop exhausts the budget and returns the category fallback. -/
theorem generateLoop_all_dup (businessKey category : String) :
    ∀ (attempts : List Attempt) (cache : List (String × List String)),
      (∀ a ∈ attempts, ∃ r, a = Attempt.parsedReview r ∧ 20 < (jsTrim r).length
        ∧ hashReview (jsTrim r) ∈ mapGetD cache businessKey []) →
      (generateLoop businessKey category cache attempts).1
        = [getFallbackReview category]
  | [], _, _ => rfl
  | a :: rest, cache, hall => by
    obtain ⟨r, ha, hlen, hmem⟩ := hall a (List.mem_cons_self a rest)
    subst ha
    have hdup := isRecentDuplicate_dup (jsTrim r) businessKey cache hmem
    unfold generateLoop
    dsimp only
    rw [if_pos hlen, hdup.1]
    rw [if_neg (by simp)]
    exact generateLoop_all_dup businessKey category rest _ (fun b hb => by
      obtain ⟨r2, hb2, hlen2, hmem2⟩ := hall b (List.mem_cons_of_mem _ hb)
      exact ⟨r2, hb2, hlen2, hdup.2.symm ▸ hmem2⟩)

end RTGen

namespace BatchGen

/-- The per-key entry after markReviewAsUsed: the fingerprint is added
if absent, with no size bound. -/
theorem markReviewAsUsed_entry (review businessKey : String)
    (cache : List (String × List String)) :
    mapGetD (markReviewAsUsed review businessKey cache) businessKey []
      = (if hashReview review ∈ mapGetD cache businessKey []
         then mapGetD cache businessKey []
         else mapGetD cache businessKey [] ++ [hashReview review]) := by
  unfold markReviewAsUsed
  dsimp only
  rw [mapGetD_mapSet]
  rw [mapGetD_ensure]

end BatchGen

/-- Claim C1: for every generation request, generateReviews of
aiReviewServiceV2.ts resolves with a non-empty list of strings and never
rejects, for every upstream outcome (missing API key, network throw,
non-2xx response, malformed payload, empty content, rate-limit closed):
every failure branch returns the static fallback strings.  Never
throwing is captured by the embedding being a total function whose
branches mirror the source returns; the cache hypothesis records that
stored responses come from successful calls, whose lists are non-empty
by callAIAPI_ok_nonempty. -/
theorem c1_generateReviews_total_nonempty (st : V2.AIReviewService)
    (req : AIReviewRequest) (u : V2.UpstreamOutcome) (now : Int)
    (hcache : ∀ p ∈ st.cache.cache, p.2.data.reviews ≠ []) :
    ((st.generateReviews req u now).1).1 ≠ [] := by
  have hfb : V2.getFallbackReviews (jsOr req.numberOfReviews 3) ≠ [] :=
    V2.getFallbackReviews_ne_nil _ (jsOr_pos _)
  by_cases h1 : st.enabled = false
  · rw [V2.generateReviews_disabled st req u now h1]
    exact hfb
  · have h1a : st.enabled = true := by simpa using h1
    by_cases h2 : (st.rateLimiter.canMakeRequest now).1 = false
    · rw [V2.generateReviews_rateLimited st req u now h1a h2]
      exact hfb
    · have h2a : (st.rateLimiter.canMakeRequest now).1 = true := by simpa using h2
      cases hc : (st.cache.get (V2.generateCacheKey req) now).1 with
      | some resp =>
        rw [V2.generateReviews_cacheHit st req u now resp h1a h2a hc]
        obtain ⟨p, hp, hpd⟩ := V2.RequestCache.get_some_mem _ _ _ _ hc
        exact hpd ▸ hcache p hp
      | none =>
        cases hapi : V2.callAIAPI st.apiKey req u now with
        | ok resp =>
          rw [V2.generateReviews_apiOk st req u now resp h1a h2a hc hapi]
          exact V2.callAIAPI_ok_nonempty _ _ _ _ _ hapi
        | error e =>
          rw [V2.generateReviews_apiErr st req u now e h1a h2a hc hapi]
          exact hfb

/-- Witness for C1 at a concrete disabled service state. -/
theorem c1_witness :
    ((V2.AIReviewService.generateReviews
        ⟨⟨[], V2.DEFAULT_RATE_LIMIT_CONFIG⟩, ⟨[], V2.DEFAULT_RATE_LIMIT_CONFIG⟩,
          none, false⟩
        ⟨"Bright Smile Dental", "healthcare", some 3, none, none⟩
        V2.UpstreamOutcome.netThrow 1000).1).1 ≠ [] :=
  c1_generateReviews_total_nonempty _ _ _ _ (by simp)

/-- Claim C2: canMakeRequest first replaces the timestamp list by the
timestamps inside the trailing hour, and answers false exactly when the
trailing-minute count reaches the per-minute ceiling or the
trailing-hour count reaches the per-hour ceiling; and whenever it
answers false on an enabled service, generateReviews returns the static
fallback through the rate-limit branch, never reaching the network
call. -/
theorem c2_rate_limit_gate (st : V2.AIReviewService) (req : AIReviewRequest)
    (u : V2.UpstreamOutcome) (now : Int) :
    ((st.rateLimiter.canMakeRequest now).2.requestTimestamps
        = st.rateLimiter.requestTimestamps.filter (fun ts => now - 3600000 < ts)
      ∧ ((st.rateLimiter.canMakeRequest now).1 = false ↔
          st.rateLimiter.config.maxRequestsPerMinute ≤
            ((st.rateLimiter.requestTimestamps.filter (fun ts => now - 3600000 < ts)).filter
              (fun ts => now - 60000 < ts)).length
          ∨ st.rateLimiter.config.maxRequestsPerHour ≤
            (st.rateLimiter.requestTimestamps.filter (fun ts => now - 3600000 < ts)).length))
    ∧ (st.enabled = true → (st.rateLimiter.canMakeRequest now).1 = false →
        (st.generateReviews req u now).1
          = (V2.getFallbackReviews (jsOr req.numberOfReviews 3),
              V2.Source.rateLimitFallback)) := by
  refine ⟨⟨V2.canMakeRequest_snd _ _, V2.canMakeRequest_false_iff _ _⟩, ?_⟩
  intro h1 h2
  rw [V2.generateReviews_rateLimited st req u now h1 h2]

/-- Witness for C2: ten recorded timestamps within the trailing minute
close the gate and the next call routes to the fallback library. -/
theorem c2_witness :
    (V2.AIReviewService.generateReviews
        ⟨⟨[], V2.DEFAULT_RATE_LIMIT_CONFIG⟩,
          ⟨List.replicate 10 5000, V2.DEFAULT_RATE_LIMIT_CONFIG⟩, some "key", true⟩
        ⟨"A", "B", none, none, none⟩ V2.UpstreamOutcome.netThrow 6000).1
      = (V2.getFallbackReviews 3, V2.Source.rateLimitFallback) :=
  (c2_rate_limit_gate _ _ _ _).2 rfl (by decide)

/-- Claim C4 (counterexample): the claim states the rate limiter records
the attempt on every branch of the generation path.  At a concrete
enabled state whose upstream fetch throws, the call reaches the
generation path (source tag errorFallback) yet the timestamp list does
not grow by one. -/
theorem c4_counterexample :
    (((V2.AIReviewService.generateReviews
        ⟨⟨[], V2.DEFAULT_RATE_LIMIT_CONFIG⟩, ⟨[], V2.DEFAULT_RATE_LIMIT_CONFIG⟩,
          some "key", true⟩
        ⟨"A", "B", none, none, none⟩ V2.UpstreamOutcome.netThrow 1000).1).2
      = V2.Source.errorFallback)
    ∧ ¬ ((V2.AIReviewService.generateReviews
        ⟨⟨[], V2.DEFAULT_RATE_LIMIT_CONFIG⟩, ⟨[], V2.DEFAULT_RATE_LIMIT_CONFIG⟩,
          some "key", true⟩
        ⟨"A", "B", none, none, none⟩
        V2.UpstreamOutcome.netThrow 1000).2.rateLimiter.requestTimestamps.length
      = (⟨⟨[], V2.DEFAULT_RATE_LIMIT_CONFIG⟩, ⟨[], V2.DEFAULT_RATE_LIMIT_CONFIG⟩,
          some "key", true⟩ : V2.AIReviewService).rateLimiter.requestTimestamps.length
        + 1) := by
  decide

/-- Claim C4 (amended): recordRequest runs only on the success branch:
after an admitted, non-cached call, the limiter holds the pruned
timestamps plus the new one exactly when callAIAPI succeeds, and just
the pruned timestamps (no new entry) when it fails. -/
theorem c4_record_only_on_success (st : V2.AIReviewService) (req : AIReviewRequest)
    (u : V2.UpstreamOutcome) (now : Int) (h1 : st.enabled = true)
    (h2 : (st.rateLimiter.canMakeRequest now).1 = true)
    (h3 : (st.cache.get (V2.generateCacheKey req) now).1 = none) :
    (∀ e, V2.callAIAPI st.apiKey req u now = Except.error e →
        (st.generateReviews req u now).2.rateLimiter.requestTimestamps
          = (st.rateLimiter.canMakeRequest now).2.requestTimestamps)
    ∧ (∀ resp, V2.callAIAPI st.apiKey req u now = Except.ok resp →
        (st.generateReviews req u now).2.rateLimiter.requestTimestamps
          = (st.rateLimiter.canMakeRequest now).2.requestTimestamps ++ [now]) := by
  constructor
  · intro e he
    rw [V2.generateReviews_apiErr st req u now e h1 h2 h3 he]
  · intro resp hresp
    rw [V2.generateReviews_apiOk st req u now resp h1 h2 h3 hresp]
    rfl

/-- Witness for C4 (amended) at a concrete failing upstream call. -/
theorem c4_witness :
    (V2.AIReviewService.generateReviews
        ⟨⟨[], V2.DEFAULT_RATE_LIMIT_CONFIG⟩, ⟨[], V2.DEFAULT_RATE_LIMIT_CONFIG⟩,
          some "key", true⟩
        ⟨"A", "B", none, none, none⟩
        V2.UpstreamOutcome.netThrow 1000).2.rateLimiter.requestTimestamps
      = (V2.RateLimiter.canMakeRequest ⟨[], V2.DEFAULT_RATE_LIMIT_CONFIG⟩
          1000).2.requestTimestamps :=
  (c4_record_only_on_success _ _ _ _ rfl (by decide) (by decide)).1
    "network failure" rfl

/-- Claim C10 (counterexample): the claim states a cache hit leaves the
rate limiter timestamp list unchanged.  At a concrete state holding one
stale timestamp, a cache-hit call still prunes the list inside
canMakeRequest, so the list after the call differs from the list
before. -/
theorem c10_counterexample :
    (((V2.AIReviewService.generateReviews
        ⟨⟨[("A_B_3_professional", ⟨⟨["cached review text"], 3999000, "m"⟩, 3999000⟩)],
            V2.DEFAULT_RATE_LIMIT_CONFIG⟩,
          ⟨[0], V2.DEFAULT_RATE_LIMIT_CONFIG⟩, some "key", true⟩
        ⟨"A", "B", none, none, none⟩
        V2.UpstreamOutcome.netThrow 4000000).1).2 = V2.Source.cacheHit)
    ∧ ¬ ((V2.AIReviewService.generateReviews
        ⟨⟨[("A_B_3_professional", ⟨⟨["cached review text"], 3999000, "m"⟩, 3999000⟩)],
            V2.DEFAULT_RATE_LIMIT_CONFIG⟩,
          ⟨[0], V2.DEFAULT_RATE_LIMIT_CONFIG⟩, some "key", true⟩
        ⟨"A", "B", none, none, none⟩
        V2.UpstreamOutcome.netThrow 4000000).2.rateLimiter.requestTimestamps
      = [0]) := by
  decide

/-- Claim C10 (amended): on an admitted call whose key hits a fresh
cache entry, generateReviews returns exactly the stored review list
through the cache branch (no network attempt), adds no timestamp, and
leaves the request cache unchanged; the timestamp list still undergoes
the trailing-hour prune performed by canMakeRequest. -/
theorem c10_cache_hit_frame (st : V2.AIReviewService) (req : AIReviewRequest)
    (u : V2.UpstreamOutcome) (now : Int) (resp : V2.AIReviewResponse)
    (h1 : st.enabled = true)
    (h2 : (st.rateLimiter.canMakeRequest now).1 = true)
    (h3 : (st.cache.get (V2.generateCacheKey req) now).1 = some resp) :
    (st.generateReviews req u now).1 = (resp.reviews, V2.Source.cacheHit)
    ∧ (st.generateReviews req u now).2.cache = st.cache
    ∧ (st.generateReviews req u now).2.rateLimiter.requestTimestamps
        = st.rateLimiter.requestTimestamps.filter (fun ts => now - 3600000 < ts) := by
  rw [V2.generateReviews_cacheHit st req u now resp h1 h2 h3]
  refine ⟨rfl, ?_, ?_⟩
  · exact V2.RequestCache.get_some_snd _ _ _ _ h3
  · exact V2.canMakeRequest_snd _ _

/-- Witness for C10 (amended) at a concrete fresh cache entry. -/
theorem c10_witness :
    (V2.AIReviewService.generateReviews
        ⟨⟨[("A_B_3_professional", ⟨⟨["cached review text"], 3999000, "m"⟩, 3999000⟩)],
            V2.DEFAULT_RATE_LIMIT_CONFIG⟩,
          ⟨[], V2.DEFAULT_RATE_LIMIT_CONFIG⟩, some "key", true⟩
        ⟨"A", "B", none, none, none⟩
        V2.UpstreamOutcome.netThrow 4000000).1
      = (["cached review text"], V2.Source.cacheHit)
    ∧ (V2.AIReviewService.generateReviews
        ⟨⟨[("A_B_3_professional", ⟨⟨["cached review text"], 3999000, "m"⟩, 3999000⟩)],
            V2.DEFAULT_RATE_LIMIT_CONFIG⟩,
          ⟨[], V2.DEFAULT_RATE_LIMIT_CONFIG⟩, some "key", true⟩
        ⟨"A", "B", none, none, none⟩
        V2.UpstreamOutcome.netThrow 4000000).2.cache
      = ⟨[("A_B_3_professional", ⟨⟨["cached review text"], 3999000, "m"⟩, 3999000⟩)],
          V2.DEFAULT_RATE_LIMIT_CONFIG⟩
    ∧ (V2.AIReviewService.generateReviews
        ⟨⟨[("A_B_3_professional", ⟨⟨["cached review text"], 3999000, "m"⟩, 3999000⟩)],
            V2.DEFAULT_RATE_LIMIT_CONFIG⟩,
          ⟨[], V2.DEFAULT_RATE_LIMIT_CONFIG⟩, some "key", true⟩
        ⟨"A", "B", none, none, none⟩
        V2.UpstreamOutcome.netThrow 4000000).2.rateLimiter.requestTimestamps
      = ([] : List Int).filter (fun ts => (4000000 : Int) - 3600000 < ts) :=
  c10_cache_hit_frame _ _ _ _ ⟨["cached review text"], 3999000, "m"⟩
    rfl (by decide) (by decide)

/-- Claim C3 (counterexample): the claim states that when every attempt
in the retry budget produces a duplicate, the last generated candidate
is still returned.  At a concrete state whose cache already holds the
candidate fingerprint, three duplicate attempts end in the category
fallback review, not the candidate. -/
theorem c3_counterexample :
    (RTGen.Service.generateReviews
        ⟨some "key",
          [("acme co_restaurant",
            [RTGen.hashReview "This restaurant food was absolutely wonderful and fresh"])]⟩
        ⟨"Acme Co", "restaurant", none, none, none⟩
        (List.replicate 3 (RTGen.Attempt.parsedReview
          "This restaurant food was absolutely wonderful and fresh"))).1
      ≠ ["This restaurant food was absolutely wonderful and fresh"]
    ∧ (RTGen.Service.generateReviews
        ⟨some "key",
          [("acme co_restaurant",
            [RTGen.hashReview "This restaurant food was absolutely wonderful and fresh"])]⟩
        ⟨"Acme Co", "restaurant", none, none, none⟩
        (List.replicate 3 (RTGen.Attempt.parsedReview
          "This restaurant food was absolutely wonderful and fresh"))).1
      = [RTGen.getFallbackReview "restaurant"] := by
  decide

/-- Claim C3 (amended): within a single runtime-generation call, if
every attempt in the retry budget produces a duplicate candidate (its
fingerprint already recorded for the business key), the call returns
the single category-specific fallback review; the last candidate is
discarded, not returned. -/
theorem c3_all_duplicates_fallback (st : RTGen.Service) (req : AIReviewRequest)
    (attempts : List RTGen.Attempt) (k : String) (hkey : st.apiKey = some k)
    (hall : ∀ a ∈ attempts, ∃ r, a = RTGen.Attempt.parsedReview r
      ∧ 20 < (jsTrim r).length
      ∧ RTGen.hashReview (jsTrim r) ∈ mapGetD st.recentReviewsCache
          (jsToLower (req.businessName ++ "_" ++ req.businessCategory)) []) :
    (st.generateReviews req attempts).1
      = [RTGen.getFallbackReview req.businessCategory] := by
  unfold RTGen.Service.generateReviews
  rw [hkey]
  dsimp only
  exact RTGen.generateLoop_all_dup _ _ (attempts.take 3) _
    (fun a ha => hall a (List.mem_of_mem_take ha))

/-- Witness for C3 (amended) at a concrete duplicate attempt. -/
theorem c3_witness :
    (RTGen.Service.generateReviews
        ⟨some "key",
          [("biz_service",
            [RTGen.hashReview "Outstanding professional service with amazing staff"])]⟩
        ⟨"Biz", "service", none, none, none⟩
        [RTGen.Attempt.parsedReview
          "Outstanding professional service with amazing staff"]).1
      = [RTGen.getFallbackReview "service"] :=
  c3_all_duplicates_fallback _ _ _ "key" rfl (by
    intro a ha
    simp only [List.mem_singleton] at ha
    subst ha
    exact ⟨_, rfl, by decide, by decide⟩)

/-- Claim C5: round-trip of the batch-generation deduplication cache.
After markReviewAsUsed records a candidate for a business key,
isReviewDuplicate answers true for that candidate, and answers false
for any string of a different fingerprint that was never recorded for
that key. -/
theorem c5_dedup_roundtrip (cache : List (String × List String)) (c d k : String)
    (hne : BatchGen.hashReview d ≠ BatchGen.hashReview c)
    (hnotin : BatchGen.hashReview d ∉ mapGetD cache k []) :
    (BatchGen.isReviewDuplicate c k (BatchGen.markReviewAsUsed c k cache)).1 = true
    ∧ (BatchGen.isReviewDuplicate d k (BatchGen.markReviewAsUsed c k cache)).1
        = false := by
  have hent := BatchGen.markReviewAsUsed_entry c k cache
  unfold BatchGen.isReviewDuplicate
  dsimp only
  rw [hent]
  constructor
  · by_cases hc : BatchGen.hashReview c ∈ mapGetD cache k []
    · simp [hc]
    · simp [hc]
  · by_cases hc : BatchGen.hashReview c ∈ mapGetD cache k []
    · simp [hc, hnotin]
    · simp [hc, hnotin, hne]

/-- Witness for C5 at two concrete reviews with distinct fingerprints. -/
theorem c5_witness :
    (BatchGen.isReviewDuplicate "Great service! Highly satisfied with everything."
        "acme_service"
        (BatchGen.markReviewAsUsed "Great service! Highly satisfied with everything."
          "acme_service" [])).1 = true
    ∧ (BatchGen.isReviewDuplicate "Completely different experience, disappointing visit."
        "acme_service"
        (BatchGen.markReviewAsUsed "Great service! Highly satisfied with everything."
          "acme_service" [])).1 = false :=
  c5_dedup_roundtrip [] "Great service! Highly satisfied with everything."
    "Completely different experience, disappointing visit." "acme_service"
    (by decide) (by decide)

/-- Claim C6 (counterexample): the claim states every record operation
leaves at most 20 fingerprints per key.  Recording 21 distinct reviews
through markReviewAsUsed of the batch-generation module yields a
21-entry set: that record path enforces no bound. -/
theorem c6_counterexample :
    ¬ ((mapGetD (((List.range 21).map (fun i => "r" ++ toString i)).foldl
        (fun cache r => BatchGen.markReviewAsUsed r "k" cache) []) "k" []).length
      ≤ 20) := by
  decide

/-- Claim C6 (amended): the 20-entry bound with first-inserted eviction
holds for the check-and-record path (isRecentDuplicate of the
runtime-generation module): if the per-key entry holds at most 20
fingerprints, it still does after the call, and a fresh fingerprint
arriving at a full 20-entry set evicts exactly the first-inserted one;
the markReviewAsUsed record path of the batch module is unbounded. -/
theorem c6_bounded_check_and_record (cache : List (String × List String))
    (review k : String) (hlen : (mapGetD cache k []).length ≤ 20) :
    (mapGetD (RTGen.isRecentDuplicate review k cache).2 k []).length ≤ 20
    ∧ ((mapGetD cache k []).length = 20 →
        RTGen.hashReview review ∉ mapGetD cache k [] →
        mapGetD (RTGen.isRecentDuplicate review k cache).2 k []
          = (mapGetD cache k []).drop 1 ++ [RTGen.hashReview review]) := by
  rw [RTGen.isRecentDuplicate_entry]
  by_cases hmem : RTGen.hashReview review ∈ mapGetD cache k []
  · rw [if_pos hmem]
    exact ⟨hlen, fun _ hno => absurd hmem hno⟩
  · rw [if_neg hmem]
    by_cases hbig : 20 < (mapGetD cache k [] ++ [RTGen.hashReview review]).length
    · rw [if_pos hbig]
      refine ⟨?_, ?_⟩
      · simp only [List.length_drop, List.length_append, List.length_singleton]
        omega
      · intro h20 _
        cases hE : mapGetD cache k [] with
        | nil =>
          rw [hE] at h20
          simp at h20
        | cons a t =>
          simp
    · rw [if_neg hbig]
      simp only [List.length_append, List.length_singleton] at hbig
      refine ⟨?_, ?_⟩
      · simp only [List.length_append, List.length_singleton]
        omega
      · intro h20 _
        exfalso
        omega

/-- Witness for C6 (amended) at a concrete empty cache. -/
theorem c6_witness :
    (mapGetD (RTGen.isRecentDuplicate
        "Fantastic team and truly excellent results" "k" []).2 "k" []).length ≤ 20
    ∧ ((mapGetD ([] : List (String × List String)) "k" []).length = 20 →
        RTGen.hashReview "Fantastic team and truly excellent results"
          ∉ mapGetD ([] : List (String × List String)) "k" [] →
        mapGetD (RTGen.isRecentDuplicate
          "Fantastic team and truly excellent results" "k" []).2 "k" []
          = (mapGetD ([] : List (String × List String)) "k" []).drop 1
            ++ [RTGen.hashReview "Fantastic team and truly excellent results"]) :=
  c6_bounded_check_and_record [] "Fantastic team and truly excellent results" "k"
    (by decide)

/-- Claim C9 (counterexample): the claim states the duplicate check is a
pure lookup and only record inserts.  Calling isRecentDuplicate of the
runtime-generation module on an empty cache changes the cache, and a
second identical check answers true although no record operation ever
ran. -/
theorem c9_counterexample :
    (RTGen.isRecentDuplicate "Wonderful experience with the whole team"
        "biz_key" []).2 ≠ ([] : List (String × List String))
    ∧ (RTGen.isRecentDuplicate "Wonderful experience with the whole team" "biz_key"
        ((RTGen.isRecentDuplicate "Wonderful experience with the whole team"
          "biz_key" []).2)).1 = true := by
  decide

/-- Claim C9 (amended): isReviewDuplicate of the batch-generation module
is a pure lookup (the cache is returned unchanged for every input),
while isRecentDuplicate of the runtime-generation module is
check-and-record: after every call the checked fingerprint is present
in the per-key entry, whether or not it was there before. -/
theorem c9_lookup_purity_split :
    (∀ (review businessKey : String) (cache : List (String × List String)),
        (BatchGen.isReviewDuplicate review businessKey cache).2 = cache)
    ∧ (∀ (review businessKey : String) (cache : List (String × List String)),
        RTGen.hashReview review
          ∈ mapGetD (RTGen.isRecentDuplicate review businessKey cache).2
              businessKey []) := by
  constructor
  · intro review businessKey cache
    rfl
  · intro review businessKey cache
    rw [RTGen.isRecentDuplicate_entry]
    by_cases hmem : RTGen.hashReview review ∈ mapGetD cache businessKey []
    · rw [if_pos hmem]
      exact hmem
    · rw [if_neg hmem]
      by_cases hbig : 20 <
          (mapGetD cache businessKey [] ++ [RTGen.hashReview review]).length
      · rw [if_pos hbig]
        cases hE : mapGetD cache businessKey [] with
        | nil =>
          rw [hE] at hbig
          simp at hbig
        | cons a t =>
          simp
      · rw [if_neg hbig]
        simp

/-- Claim C7: fallback selection with an unrecognized category key draws
from the generic default pool and never returns empty for a requested
count between 1 and the default pool size — in the Gemini variant the
shuffled Professional Services pool is used, and in the rotating
variant the pick comes from the service pool. -/
theorem c7_unknown_category_defaults (category : String) (n : Nat)
    (shuffle : List String → List String) (businessKey : String)
    (idx : List (String × Nat))
    (hcatG : ∀ p ∈ Gemini.FALLBACK_REVIEWS_BY_CATEGORY, p.1 ≠ category)
    (hperm : (shuffle (Gemini.categoryReviews category)).Perm
      (Gemini.categoryReviews category))
    (hn1 : 1 ≤ n) (hn2 : n ≤ Gemini.professionalServicesPool.length)
    (hcat6 : ∀ p ∈ RotGen.FALLBACK_REVIEWS, p.1 ≠ jsToLower category) :
    (Gemini.getFallbackReviews category n shuffle ≠ []
      ∧ ∀ r ∈ Gemini.getFallbackReviews category n shuffle,
          r ∈ Gemini.professionalServicesPool)
    ∧ (RotGen.getRotatingFallback category businessKey idx).1
        ∈ RotGen.servicePool := by
  have hG : Gemini.categoryReviews category = Gemini.professionalServicesPool := by
    unfold Gemini.categoryReviews
    exact mapGetD_of_not_has _ _ _ (mapHas_eq_false_of_ne _ _ hcatG)
  have hR : RotGen.poolFor category = RotGen.servicePool := by
    unfold RotGen.poolFor
    exact mapGetD_of_not_has _ _ _ (mapHas_eq_false_of_ne _ _ hcat6)
  refine ⟨⟨?_, ?_⟩, ?_⟩
  · unfold Gemini.getFallbackReviews
    apply take_ne_nil
    · intro hnil
      have hl := hperm.length_eq
      rw [hnil, hG] at hl
      simp [Gemini.professionalServicesPool] at hl
    · omega
  · intro r hr
    unfold Gemini.getFallbackReviews at hr
    have hr2 := List.mem_of_mem_take hr
    have hr3 := hperm.mem_iff.mp hr2
    rwa [hG] at hr3
  · unfold RotGen.getRotatingFallback
    dsimp only
    rw [hR]
    exact getD_mod_mem _ _ (by decide)

/-- Witness for C7 at a concrete unknown category. -/
theorem c7_witness :
    (Gemini.getFallbackReviews "Bright Unknown" 3 id ≠ []
      ∧ ∀ r ∈ Gemini.getFallbackReviews "Bright Unknown" 3 id,
          r ∈ Gemini.professionalServicesPool)
    ∧ (RotGen.getRotatingFallback "Bright Unknown" "bk" []).1
        ∈ RotGen.servicePool :=
  c7_unknown_category_defaults "Bright Unknown" 3 id "bk" []
    (by decide) (List.Perm.refl _) (by decide) (by decide) (by decide)

/-- Claim C8 (counterexample): the claim asserts two consecutive
fallback picks never return the same literal string.  For the
shuffle-based Gemini selection the shuffle may produce the same
permutation twice (the identity is a possible outcome), in which case
both consecutive picks start with the same literal string, refuting the
never-repeat property for that implementation. -/
theorem c8_counterexample :
    1 < (Gemini.categoryReviews "General Business").length
    ∧ ¬ (∀ (shuffle1 shuffle2 : List String → List String),
        (shuffle1 (Gemini.categoryReviews "General Business")).Perm
          (Gemini.categoryReviews "General Business") →
        (shuffle2 (Gemini.categoryReviews "General Business")).Perm
          (Gemini.categoryReviews "General Business") →
        (Gemini.getFallbackReviews "General Business" 3 shuffle1).headD ""
          ≠ (Gemini.getFallbackReviews "General Business" 3 shuffle2).headD "") := by
  constructor
  · decide
  · intro h
    exact h id id (List.Perm.refl _) (List.Perm.refl _) rfl

/-- Claim C8 (amended): the rotating implementation guarantees the
property: for every business key and every category, two consecutive
getRotatingFallback picks return different literal strings (every
resolved pool has eight pairwise cyclically distinct entries); the
shuffle-based implementation does not. -/
theorem c8_rotating_never_back_to_back (category businessKey : String)
    (fallbackIndex : List (String × Nat)) :
    (RotGen.getRotatingFallback category businessKey
        ((RotGen.getRotatingFallback category businessKey fallbackIndex).2)).1
      ≠ (RotGen.getRotatingFallback category businessKey fallbackIndex).1 := by
  unfold RotGen.getRotatingFallback
  dsimp only
  rw [mapGetD_mapSet]
  rcases RotGen.poolFor_cases category with h | h | h <;> rw [h]
  · exact getD_cycle_ne RotGen.automotivePool rfl (by decide) _
  · exact getD_cycle_ne RotGen.restaurantPool rfl (by decide) _
  · exact getD_cycle_ne RotGen.servicePool rfl (by decide) _
